import Mathlib

/-!
Verification development for the MCP file-manager server
(`file-manager-server.py`, class `MCPFileServer`).

The Python program is shallowly embedded: the filesystem, hashing, MIME
and glob collaborators (which the program's own documentation treats as
external) are modelled by explicit state passing over a finite-map
filesystem `FS` and an ambient collaborator record `Ctx`; each Python
method of `MCPFileServer` becomes a Lean definition of the same name;
Python `try`/`except` blocks become `Except String` values inspected by
the handler; JSON values are the inductive `Json`.
-/

namespace FMS

/-- JSON values, as produced by the server's response construction. -/
inductive Json where
  | null : Json
  | bool (b : Bool) : Json
  | num (n : Int) : Json
  | str (s : String) : Json
  | arr (xs : List Json) : Json
  | obj (fields : List (String × Json)) : Json

/-- Stat metadata of a filesystem entry (`os.stat` fields used by the server). -/
structure StatMeta where
  ctime : Int
  mtime : Int
  atime : Int
  mode : String
  uid : Int
  gid : Int
deriving DecidableEq

/-- A regular file: its byte content (modelled as a string), whether the
process may read it (permission), whether it decodes as text, and its stat
metadata. -/
structure FileEntry where
  content : String
  readable : Bool
  textOk : Bool
  meta : StatMeta
deriving DecidableEq

/-- The filesystem state: finite associations path → file and path → directory. -/
structure FS where
  files : List (String × FileEntry)
  dirs : List (String × StatMeta)
deriving DecidableEq

/-- Model of `os.path.join a b`. -/
def joinPath (a b : String) : String := a ++ "/" ++ b

/-- Python `str.startswith` (also used as the string-prefix test),
character-list based. -/
def pyStartsWith (s pre : String) : Bool := pre.toList.isPrefixOf s.toList

def splitListOnChar (c : Char) : List Char → List (List Char)
  | [] => [[]]
  | a :: rest =>
    let r := splitListOnChar c rest
    if a == c then [] :: r
    else
      match r with
      | [] => [[a]]
      | g :: gs => (a :: g) :: gs

/-- Python `str.split(c)` on a single-character separator. -/
def splitOnChar (c : Char) (s : String) : List String :=
  (splitListOnChar c s.toList).map String.mk

/-- Python `str.lower()` (ASCII case folding). -/
def strToLower (s : String) : String := String.mk (s.toList.map Char.toLower)

/-- Python `str.strip()`. -/
def strTrim (s : String) : String :=
  String.mk (((s.toList.dropWhile Char.isWhitespace).reverse.dropWhile
    Char.isWhitespace).reverse)

/-- `isUnder parent q`: `q` is strictly inside directory `parent`
(string-prefix with a separator, mirroring how paths nest). -/
def isUnder (parent q : String) : Bool := pyStartsWith q (parent ++ "/")

/-- Model of `os.path.basename`. -/
def basename (p : String) : String :=
  match (splitOnChar '/' p).getLast? with
  | some s => s
  | none => p

/-- Model of `os.path.dirname`. -/
def parentPath (p : String) : String :=
  String.intercalate "/" (splitOnChar '/' p).dropLast

/-- The proper ancestor paths of `p` (used by `mkdir(parents=True)`). -/
def strictAncestors (p : String) : List String :=
  let parts := splitOnChar '/' p
  (List.range parts.length).filterMap (fun k =>
    if k = 0 then none
    else if k = parts.length then none
    else some (String.intercalate "/" (parts.take k)))

def lookupFile (fs : FS) (p : String) : Option FileEntry := fs.files.lookup p

def lookupDir (fs : FS) (p : String) : Option StatMeta := fs.dirs.lookup p

/-- Model of `os.path.isfile`. -/
def osPathIsfile (fs : FS) (p : String) : Bool := (lookupFile fs p).isSome

/-- Model of `os.path.isdir`. -/
def osPathIsdir (fs : FS) (p : String) : Bool := (lookupDir fs p).isSome

/-- Model of `os.path.exists`. -/
def osPathExists (fs : FS) (p : String) : Bool := osPathIsfile fs p || osPathIsdir fs p

/-- Does directory `p` contain any entry (file or directory)? -/
def hasChild (fs : FS) (p : String) : Bool :=
  fs.files.any (fun q => isUnder p q.1) || fs.dirs.any (fun q => isUnder p q.1)

/-- Is some existing regular file a proper ancestor of `p`? -/
def hasFileAncestor (fs : FS) (p : String) : Bool :=
  fs.files.any (fun q => isUnder q.1 p)

def removeFileEntry (fs : FS) (p : String) : FS :=
  { fs with files := fs.files.filter (fun q => q.1 != p) }

/-- Model of `os.remove` (collaborator): fails on directories and missing paths. -/
def osRemove (fs : FS) (p : String) : Except String FS :=
  if osPathIsdir fs p then .error "IsADirectoryError"
  else if osPathIsfile fs p then .ok (removeFileEntry fs p)
  else .error "FileNotFoundError"

/-- Model of `os.rmdir` (collaborator): removes an empty directory only. -/
def osRmdir (fs : FS) (p : String) : Except String FS :=
  if osPathIsdir fs p then
    if hasChild fs p then .error "Directory not empty"
    else .ok { fs with dirs := fs.dirs.filter (fun q => q.1 != p) }
  else if osPathIsfile fs p then .error "NotADirectoryError"
  else .error "FileNotFoundError"

/-- Model of `shutil.rmtree` (collaborator): removes the directory and every
entry below it. -/
def shutilRmtree (fs : FS) (p : String) : Except String FS :=
  if osPathIsdir fs p then
    .ok { files := fs.files.filter (fun q => !(q.1 == p || isUnder p q.1)),
          dirs := fs.dirs.filter (fun q => !(q.1 == p || isUnder p q.1)) }
  else .error "NotADirectoryError"

def defaultMeta : StatMeta := ⟨0, 0, 0, "755", 0, 0⟩

def addDir (fs : FS) (p : String) : FS :=
  if osPathIsdir fs p then fs else { fs with dirs := (p, defaultMeta) :: fs.dirs }

def addDirs (fs : FS) (ps : List String) : FS := ps.foldl addDir fs

/-- Model of `pathlib.Path(p).mkdir(parents=parents, exist_ok=True)`
(collaborator): an existing directory is accepted silently (`exist_ok`),
an existing regular file raises `FileExistsError`, a regular file on the
ancestor chain raises, `parents=True` creates missing ancestors, and
`parents=False` requires the parent to exist. -/
def pathMkdir (fs : FS) (p : String) (parents : Bool) : Except String FS :=
  if osPathIsfile fs p then .error "FileExistsError"
  else if osPathIsdir fs p then .ok fs
  else if hasFileAncestor fs p then .error "NotADirectoryError"
  else if parents then .ok (addDirs fs (strictAncestors p ++ [p]))
  else if parentPath p = "" || osPathIsdir fs (parentPath p) then .ok (addDir fs p)
  else .error "FileNotFoundError"

/-- Model of `open(p, "r", encoding=enc)` followed by `.read()`: fails on
directories, missing files, unreadable files and undecodable content. -/
def openReadText (fs : FS) (p : String) (enc : String) : Except String String :=
  match lookupFile fs p with
  | some e =>
    if e.readable then
      if e.textOk then .ok e.content else .error "UnicodeDecodeError"
    else .error "PermissionError"
  | none => if osPathIsdir fs p then .error "IsADirectoryError" else .error "FileNotFoundError"

/-- Model of `open(p, "rb")` followed by `.read()`. -/
def openReadBinary (fs : FS) (p : String) : Except String String :=
  match lookupFile fs p with
  | some e => if e.readable then .ok e.content else .error "PermissionError"
  | none => if osPathIsdir fs p then .error "IsADirectoryError" else .error "FileNotFoundError"

/-- Model of `open(p, "r", encoding="utf-8", errors="ignore")` followed by
`.read()`: decode errors are ignored, permission errors still raise. -/
def openReadIgnoreErrors (fs : FS) (p : String) : Except String String :=
  match lookupFile fs p with
  | some e => if e.readable then .ok e.content else .error "PermissionError"
  | none => if osPathIsdir fs p then .error "IsADirectoryError" else .error "FileNotFoundError"

def setFile (fs : FS) (p : String) (e : FileEntry) : FS :=
  { fs with files := (p, e) :: fs.files.filter (fun q => q.1 != p) }

/-- Model of `open(p, mode, encoding=enc)` + `.write(content)` where mode is
`"a"` or `"w"`: fails on directories and when the parent directory is absent. -/
def openWrite (fs : FS) (p content : String) (append : Bool) (nm : StatMeta) : Except String FS :=
  if osPathIsdir fs p then .error "IsADirectoryError"
  else if hasFileAncestor fs p then .error "NotADirectoryError"
  else if (splitOnChar '/' p).length ≤ 1 || parentPath p = "" || osPathIsdir fs (parentPath p) then
    let old := match lookupFile fs p with | some e => e.content | none => ""
    .ok (setFile fs p ⟨(if append then old ++ content else content), true, true, nm⟩)
  else .error "FileNotFoundError"

/-- Remap a path below `src` to the corresponding path below `dst`. -/
def mapUnder (src dst q : String) : String := dst ++ q.drop src.length

def renameTree (fs : FS) (src dst : String) : FS :=
  { files := fs.files.map (fun q =>
      if q.1 == src then (dst, q.2)
      else if isUnder src q.1 then (mapUnder src dst q.1, q.2) else q),
    dirs := fs.dirs.map (fun q =>
      if q.1 == src then (dst, q.2)
      else if isUnder src q.1 then (mapUnder src dst q.1, q.2) else q) }

/-- Model of `shutil.move` (collaborator), simplified: moving into an existing
directory targets `dst/basename src`; an occupied target raises. -/
def shutilMove (fs : FS) (src dst : String) : Except String FS :=
  if !(osPathExists fs src) then .error "FileNotFoundError"
  else
    let realDst := if osPathIsdir fs dst then joinPath dst (basename src) else dst
    if osPathExists fs realDst then .error "FileExistsError"
    else .ok (renameTree fs src realDst)

/-- Model of `shutil.copy2` (collaborator): bytewise copy of a regular file
that also copies its stat metadata; copying onto an existing directory
targets `dst/basename src`. -/
def shutilCopy2 (fs : FS) (src dst : String) : Except String FS :=
  match lookupFile fs src with
  | none => if osPathIsdir fs src then .error "IsADirectoryError" else .error "FileNotFoundError"
  | some e =>
    if e.readable then
      let realDst := if osPathIsdir fs dst then joinPath dst (basename src) else dst
      .ok (setFile fs realDst e)
    else .error "PermissionError"

/-- Model of `shutil.copytree` (collaborator): fails if the destination
exists, otherwise reproduces every entry below `src` below `dst`. -/
def shutilCopytree (fs : FS) (src dst : String) : Except String FS :=
  if osPathExists fs dst then .error "FileExistsError"
  else if !(osPathIsdir fs src) then .error "NotADirectoryError"
  else .ok
    { files := fs.files ++
        (fs.files.filter (fun q => isUnder src q.1)).map (fun q => (mapUnder src dst q.1, q.2)),
      dirs := fs.dirs ++ [(dst, defaultMeta)] ++
        (fs.dirs.filter (fun q => isUnder src q.1)).map (fun q => (mapUnder src dst q.1, q.2)) }

/-- Ambient collaborators of the server process: path resolution
(`os.path.abspath` composed with `os.path.expanduser`, `none` modelling an
exception), `Path.absolute`, `mimetypes.guess_type`, `hashlib.md5(...).hexdigest()`,
`base64.b64encode(...).decode("ascii")`, `glob.glob`, and the stat metadata
given to newly created files. -/
structure Ctx where
  resolve : String → Option String
  absolute : String → String
  guessMime : String → Option String
  md5hex : String → String
  b64encode : String → String
  glob : String → Except String (List String)
  newMeta : StatMeta

/-- The deny-list tuple of `is_safe_path`. -/
def denyPrefixes : List String := ["/etc", "/sys", "/proc", "C:\\Windows", "C:\\Program Files"]

/-- `MCPFileServer.is_safe_path`: resolve to a user-expanded absolute path and
reject when that string starts with one of the denied prefixes; any
resolution failure is unsafe. -/
def is_safe_path (ctx : Ctx) (file_path : String) : Bool :=
  match ctx.resolve file_path with
  | some abs_path => !(denyPrefixes.any (fun d => pyStartsWith abs_path d))
  | none => false

/-- One `{type, text}` content block of a tool result. -/
structure ContentBlock where
  type : String
  text : String
deriving DecidableEq

/-- The dict `{"content": [...]}` returned by every tool handler. -/
structure ToolResult where
  content : List ContentBlock
deriving DecidableEq

def textResult (s : String) : ToolResult := ⟨[⟨"text", s⟩]⟩

def accessRestricted : ToolResult := textResult "Error: Access to this path is restricted"

/-- The `arguments` mapping of a `tools/call` request, with one optional slot
per key any of the nine handlers reads (`args.get(key, default)` becomes
`field.getD default`). -/
structure Args where
  path : Option String := none
  content : Option String := none
  encoding : Option String := none
  append : Option Bool := none
  pattern : Option String := none
  recursive : Option Bool := none
  source : Option String := none
  destination : Option String := none
  parents : Option Bool := none
  directory : Option String := none
  file_pattern : Option String := none
deriving DecidableEq

/-! ### The nine tool handlers

Each handler takes `(ctx, fs, args)` and returns the possibly-updated
filesystem together with the ToolResult dict it builds.  The body of the
Python `try` block is factored into a `..._attempt` definition returning
`Except String`; the handler's `match` on it is the `try`/`except`. -/

/-- The binary-mime test of `read_file`:
`mime_type.startswith(("image/", "audio/", "video/", "application/octet-stream"))`. -/
def binaryMime (m : String) : Bool :=
  pyStartsWith m "image/" || pyStartsWith m "audio/" || pyStartsWith m "video/" ||
    pyStartsWith m "application/octet-stream"

/-- The `try` block of `read_file`: guess the MIME type; binary-looking files
are read raw and base64-encoded, everything else is read as text. -/
def read_attempt (ctx : Ctx) (fs : FS) (file_path encoding : String) : Except String String :=
  match ctx.guessMime file_path with
  | some mime_type =>
    if binaryMime mime_type then
      match openReadBinary fs file_path with
      | .ok raw => .ok ("Binary file (base64 encoded):\n" ++ ctx.b64encode raw)
      | .error e => .error e
    else openReadText fs file_path encoding
  | none => openReadText fs file_path encoding

/-- `MCPFileServer.read_file`. -/
def read_file (ctx : Ctx) (fs : FS) (args : Args) : FS × ToolResult :=
  let file_path := args.path.getD ""
  let encoding := args.encoding.getD "utf-8"
  if is_safe_path ctx file_path then
    match read_attempt ctx fs file_path encoding with
    | .ok text => (fs, textResult text)
    | .error e => (fs, textResult ("Error reading file: " ++ e))
  else (fs, accessRestricted)

/-- `MCPFileServer.write_file`. -/
def write_file (ctx : Ctx) (fs : FS) (args : Args) : FS × ToolResult :=
  let file_path := args.path.getD ""
  let content := args.content.getD ""
  let append := args.append.getD false
  if is_safe_path ctx file_path then
    match openWrite fs file_path content append ctx.newMeta with
    | .ok fs2 =>
      let action := if append then "appended to" else "written to"
      (fs2, textResult ("Successfully " ++ action ++ " file: " ++ file_path))
    | .error e => (fs, textResult ("Error writing file: " ++ e))
  else (fs, accessRestricted)

/-- One element of the `file_list` built by `list_files`. -/
structure ListEntry where
  path : String
  type : String
  size : Int
  modified : Int
deriving DecidableEq

/-- `os.stat(...).st_size` (file sizes are content lengths in the model). -/
def statSize (fs : FS) (p : String) : Int :=
  match lookupFile fs p with
  | some e => e.content.length
  | none => 0

/-- `os.stat(...).st_mtime`. -/
def statMtime (fs : FS) (p : String) : Int :=
  match lookupFile fs p with
  | some e => e.meta.mtime
  | none =>
    match lookupDir fs p with
    | some m => m.mtime
    | none => 0

/-- The `try` block of `list_files`: glob, then stat every match that exists. -/
def list_attempt (ctx : Ctx) (fs : FS) (directory pattern : String) (recursive : Bool) :
    Except String (List ListEntry) :=
  let search_pattern :=
    if recursive then joinPath (joinPath directory "**") pattern
    else joinPath directory pattern
  match ctx.glob search_pattern with
  | .error e => .error e
  | .ok files =>
    .ok (files.filterMap (fun file_path =>
      if osPathExists fs file_path then
        some ⟨file_path, (if osPathIsdir fs file_path then "dir" else "file"),
              statSize fs file_path, statMtime fs file_path⟩
      else none))

def quoteStr (s : String) : String := "\"" ++ s ++ "\""

/-- Model of `json.dumps` on one `file_list` element (whitespace of the
Python `indent=2` rendering is immaterial to every claim). -/
def renderListEntry (e : ListEntry) : String :=
  "\x7b" ++ quoteStr "path" ++ ": " ++ quoteStr e.path ++ ", " ++
    quoteStr "type" ++ ": " ++ quoteStr e.type ++ ", " ++
    quoteStr "size" ++ ": " ++ toString e.size ++ ", " ++
    quoteStr "modified" ++ ": " ++ toString e.modified ++ "\x7d"

def renderListEntries (xs : List ListEntry) : String :=
  "[" ++ String.intercalate ", " (xs.map renderListEntry) ++ "]"

/-- `MCPFileServer.list_files`. -/
def list_files (ctx : Ctx) (fs : FS) (args : Args) : FS × ToolResult :=
  let directory := args.path.getD "."
  let pattern := args.pattern.getD "*"
  let recursive := args.recursive.getD false
  if is_safe_path ctx directory then
    match list_attempt ctx fs directory pattern recursive with
    | .ok file_list => (fs, textResult (renderListEntries file_list))
    | .error e => (fs, textResult ("Error listing files: " ++ e))
  else (fs, accessRestricted)

/-- `MCPFileServer.create_directory`. -/
def create_directory (ctx : Ctx) (fs : FS) (args : Args) : FS × ToolResult :=
  let dir_path := args.path.getD ""
  let parents := args.parents.getD true
  if is_safe_path ctx dir_path then
    match pathMkdir fs dir_path parents with
    | .ok fs2 => (fs2, textResult ("Successfully created directory: " ++ dir_path))
    | .error e => (fs, textResult ("Error creating directory: " ++ e))
  else (fs, accessRestricted)

/-- The `try` block of `delete_file`: directories are removed by `rmtree`
when `recursive` and by `rmdir` otherwise; files by `os.remove`. -/
def delete_attempt (fs : FS) (file_path : String) (recursive : Bool) : Except String FS :=
  if osPathIsdir fs file_path then
    if recursive then shutilRmtree fs file_path else osRmdir fs file_path
  else osRemove fs file_path

/-- `MCPFileServer.delete_file`. -/
def delete_file (ctx : Ctx) (fs : FS) (args : Args) : FS × ToolResult :=
  let file_path := args.path.getD ""
  let recursive := args.recursive.getD false
  if is_safe_path ctx file_path then
    match delete_attempt fs file_path recursive with
    | .ok fs2 => (fs2, textResult ("Successfully deleted: " ++ file_path))
    | .error e => (fs, textResult ("Error deleting file: " ++ e))
  else (fs, accessRestricted)

/-- `MCPFileServer.move_file`. -/
def move_file (ctx : Ctx) (fs : FS) (args : Args) : FS × ToolResult :=
  let source := args.source.getD ""
  let destination := args.destination.getD ""
  if is_safe_path ctx source && is_safe_path ctx destination then
    match shutilMove fs source destination with
    | .ok fs2 => (fs2, textResult ("Successfully moved " ++ source ++ " to " ++ destination))
    | .error e => (fs, textResult ("Error moving file: " ++ e))
  else (fs, accessRestricted)

/-- Outcome of the `try` block of `copy_file`: either a completed copy or
the early in-`try` return asking for `recursive=true`. -/
inductive CopyOutcome where
  | copied (fs2 : FS)
  | needRecursive
deriving DecidableEq

/-- The `try` block of `copy_file`. -/
def copy_attempt (fs : FS) (source destination : String) (recursive : Bool) :
    Except String CopyOutcome :=
  if osPathIsdir fs source then
    if recursive then
      match shutilCopytree fs source destination with
      | .ok fs2 => .ok (.copied fs2)
      | .error e => .error e
    else .ok .needRecursive
  else
    match shutilCopy2 fs source destination with
    | .ok fs2 => .ok (.copied fs2)
    | .error e => .error e

/-- `MCPFileServer.copy_file`. -/
def copy_file (ctx : Ctx) (fs : FS) (args : Args) : FS × ToolResult :=
  let source := args.source.getD ""
  let destination := args.destination.getD ""
  let recursive := args.recursive.getD false
  if is_safe_path ctx source && is_safe_path ctx destination then
    match copy_attempt fs source destination recursive with
    | .ok (.copied fs2) =>
      (fs2, textResult ("Successfully copied " ++ source ++ " to " ++ destination))
    | .ok .needRecursive => (fs, textResult "Error: Use recursive=true to copy directories")
    | .error e => (fs, textResult ("Error copying file: " ++ e))
  else (fs, accessRestricted)

def fmtHundredths (h : Nat) : String :=
  let q := h / 100
  let r := h % 100
  toString q ++ "." ++ (if r < 10 then "0" ++ toString r else toString r)

/-- The unit loop of `_human_readable_size` run over hundredths
(integer approximation of the Python float formatting; no claim depends
on the rounding of the fractional digits). -/
def human_readable_size_go (h : Nat) : List String → String
  | [] => fmtHundredths h ++ " PB"
  | u :: us => if h < 1024 * 100 then fmtHundredths h ++ " " ++ u
               else human_readable_size_go (h / 1024) us

/-- `MCPFileServer._human_readable_size`. -/
def human_readable_size (size : Nat) : String :=
  human_readable_size_go (size * 100) ["B", "KB", "MB", "GB", "TB"]

/-- The `info` dict built by `get_file_info`; `mime_type` and `md5` are
present only for regular files (`md5` only below the 100 MB ceiling). -/
structure InfoRec where
  path : String
  absolute_path : String
  type : String
  size : Int
  size_readable : String
  created : Int
  modified : Int
  accessed : Int
  permissions : String
  owner : Int
  group : Int
  mime_type : Option (Option String) := none
  md5 : Option String := none
deriving DecidableEq

def renderJsonStrOpt : Option String → String
  | some s => quoteStr s
  | none => "null"

/-- Model of `json.dumps(info, indent=2)` (whitespace immaterial to claims). -/
def renderInfo (i : InfoRec) : String :=
  "\x7b" ++ quoteStr "path" ++ ": " ++ quoteStr i.path ++ ", " ++
    quoteStr "absolute_path" ++ ": " ++ quoteStr i.absolute_path ++ ", " ++
    quoteStr "type" ++ ": " ++ quoteStr i.type ++ ", " ++
    quoteStr "size" ++ ": " ++ toString i.size ++ ", " ++
    quoteStr "size_readable" ++ ": " ++ quoteStr i.size_readable ++ ", " ++
    quoteStr "created" ++ ": " ++ toString i.created ++ ", " ++
    quoteStr "modified" ++ ": " ++ toString i.modified ++ ", " ++
    quoteStr "accessed" ++ ": " ++ toString i.accessed ++ ", " ++
    quoteStr "permissions" ++ ": " ++ quoteStr i.permissions ++ ", " ++
    quoteStr "owner" ++ ": " ++ toString i.owner ++ ", " ++
    quoteStr "group" ++ ": " ++ toString i.group ++
    (match i.mime_type with
     | some m => ", " ++ quoteStr "mime_type" ++ ": " ++ renderJsonStrOpt m
     | none => "") ++
    (match i.md5 with
     | some h => ", " ++ quoteStr "md5" ++ ": " ++ quoteStr h
     | none => "") ++ "\x7d"

def statMetaOf (fs : FS) (p : String) : StatMeta :=
  match lookupFile fs p with
  | some e => e.meta
  | none =>
    match lookupDir fs p with
    | some m => m
    | none => defaultMeta

/-- The `try` block of `get_file_info`: a missing path returns the
"File not found" text normally (this is not an exception path). -/
def info_attempt (ctx : Ctx) (fs : FS) (file_path : String) : Except String String :=
  if !(osPathExists fs file_path) then .ok ("File not found: " ++ file_path)
  else
    let m := statMetaOf fs file_path
    let sz := statSize fs file_path
    let base : InfoRec :=
      ⟨file_path, ctx.absolute file_path,
       (if osPathIsdir fs file_path then "directory" else "file"),
       sz, human_readable_size sz.toNat, m.ctime, m.mtime, m.atime, m.mode,
       m.uid, m.gid, none, none⟩
    if osPathIsfile fs file_path then
      let withMime := { base with mime_type := some (ctx.guessMime file_path) }
      if sz < 100 * 1024 * 1024 then
        match openReadBinary fs file_path with
        | .ok raw => .ok (renderInfo { withMime with md5 := some (ctx.md5hex raw) })
        | .error e => .error e
      else .ok (renderInfo withMime)
    else .ok (renderInfo base)

/-- `MCPFileServer.get_file_info`. -/
def get_file_info (ctx : Ctx) (fs : FS) (args : Args) : FS × ToolResult :=
  let file_path := args.path.getD ""
  if is_safe_path ctx file_path then
    match info_attempt ctx fs file_path with
    | .ok text => (fs, textResult text)
    | .error e => (fs, textResult ("Error getting file info: " ++ e))
  else (fs, accessRestricted)

/-- Contiguous-sublist test on character lists. -/
def listInfix (needle : List Char) : List Char → Bool
  | [] => needle.isEmpty
  | c :: rest => needle.isPrefixOf (c :: rest) || listInfix needle rest

/-- Python's substring test `needle in hay`. -/
def pyIn (needle hay : String) : Bool := listInfix needle.toList hay.toList

/-- Python's slice `s[:n]` (first `n` characters). -/
def strTake (n : Nat) (s : String) : String := String.mk (s.toList.take n)

/-- One element of a `matches` list of `search_files`. -/
structure MatchRec where
  line_number : Nat
  content : String
deriving DecidableEq

/-- One element of the `results` list of `search_files`; `matchList` is the
dict's `"matches"` key (`matches` is reserved in Lean). -/
structure SearchEntry where
  file : String
  matchList : List MatchRec
deriving DecidableEq

/-- The per-file match collection of `search_files`: enumerate the lines
from 1, keep the case-insensitive matches with the line stripped and cut to
100 characters, then keep the first 5. -/
def collectMatches (search_pattern content : String) : List MatchRec :=
  let lines := splitOnChar '\n' content
  ((lines.enum.filter (fun pr => pyIn (strToLower search_pattern) (strToLower pr.2))).map
    (fun pr => ⟨pr.1 + 1, strTake 100 (strTrim pr.2)⟩)).take 5

/-- The glob-result loop of `search_files`: regular files whose
(ignore-errors) text read succeeds and contains the pattern
case-insensitively contribute an entry; unreadable files are skipped. -/
def searchLoop (fs : FS) (search_pattern : String) : List String → List SearchEntry
  | [] => []
  | file_path :: rest =>
    if osPathIsfile fs file_path then
      match openReadIgnoreErrors fs file_path with
      | .ok content =>
        if pyIn (strToLower search_pattern) (strToLower content) then
          ⟨file_path, collectMatches search_pattern content⟩ ::
            searchLoop fs search_pattern rest
        else searchLoop fs search_pattern rest
      | .error _ => searchLoop fs search_pattern rest
    else searchLoop fs search_pattern rest

/-- The `try` block of `search_files`. -/
def search_attempt (ctx : Ctx) (fs : FS) (directory search_pattern file_pat : String) :
    Except String (List SearchEntry) :=
  let search_path := joinPath (joinPath directory "**") file_pat
  match ctx.glob search_path with
  | .ok found => .ok (searchLoop fs search_pattern found)
  | .error e => .error e

def renderMatchRec (m : MatchRec) : String :=
  "\x7b" ++ quoteStr "line_number" ++ ": " ++ toString m.line_number ++ ", " ++
    quoteStr "content" ++ ": " ++ quoteStr m.content ++ "\x7d"

def renderSearchEntry (r : SearchEntry) : String :=
  "\x7b" ++ quoteStr "file" ++ ": " ++ quoteStr r.file ++ ", " ++
    quoteStr "matches" ++ ": [" ++
    String.intercalate ", " (r.matchList.map renderMatchRec) ++ "]\x7d"

/-- Model of `json.dumps(results, indent=2)` (whitespace immaterial to claims). -/
def renderSearchEntries (rs : List SearchEntry) : String :=
  "[" ++ String.intercalate ", " (rs.map renderSearchEntry) ++ "]"

/-- `MCPFileServer.search_files`. -/
def search_files (ctx : Ctx) (fs : FS) (args : Args) : FS × ToolResult :=
  let directory := args.directory.getD "."
  let search_pattern := args.pattern.getD ""
  let file_pat := args.file_pattern.getD "*"
  if is_safe_path ctx directory then
    match search_attempt ctx fs directory search_pattern file_pat with
    | .ok results =>
      (fs, textResult (if results.isEmpty then "No matches found"
                       else renderSearchEntries results))
    | .error e => (fs, textResult ("Error searching files: " ++ e))
  else (fs, accessRestricted)

/-! ### Dispatcher and request loop -/

/-- Python string interpolation of a value that may be `None`
(`f"... {tool_name}"` prints `None` for an absent key). -/
def pyStrOfOpt : Option String → String
  | some s => s
  | none => "None"

/-- The `params` object of a request: `{"name": ..., "arguments": ...}`. -/
structure Params where
  name : Option String := none
  arguments : Args := {}
deriving DecidableEq

/-- A parsed JSON-RPC request: `id` is echoed opaquely, `method` and
`params` may be absent (`request.get`). -/
structure Request where
  id : Json := Json.null
  method : Option String := none
  params : Option Params := none

/-- A response is the echoed `id` together with either a `result` member or
an `error` member (the constant `jsonrpc: "2.0"` field is implicit). -/
inductive RespBody where
  | result (r : Json)
  | error (code : Int) (message : String)

structure Response where
  id : Json
  body : RespBody

/-- The ToolResult dict as a JSON value. -/
def toolResultJson (r : ToolResult) : Json :=
  Json.obj [("content", Json.arr (r.content.map (fun b =>
    Json.obj [("type", Json.str b.type), ("text", Json.str b.text)])))]

/-- `MCPFileServer.handle_initialize`: the fixed capability descriptor. -/
def handle_init : Json :=
  Json.obj [("protocolVersion", Json.str "2024-11-05"),
            ("capabilities", Json.obj [("tools", Json.obj []), ("resources", Json.obj [])]),
            ("serverInfo", Json.obj [("name", Json.str "file-manager"),
                                     ("version", Json.str "1.0.0")])]

def schemaProp (nm ty desc : String) : String × Json :=
  (nm, Json.obj [("type", Json.str ty), ("description", Json.str desc)])

def schemaPropD (nm ty desc : String) (dflt : Json) : String × Json :=
  (nm, Json.obj [("type", Json.str ty), ("description", Json.str desc), ("default", dflt)])

def objSchema (props : List (String × Json)) (required : List String) : Json :=
  Json.obj ([("type", Json.str "object"), ("properties", Json.obj props)] ++
    (if required.isEmpty then [] else [("required", Json.arr (required.map Json.str))]))

/-- `self.tools`: the static registry (name, description, inputSchema),
in insertion order. -/
def toolsRegistry : List (String × String × Json) :=
  [("read_file", "Read contents of a file",
    objSchema [schemaProp "path" "string" "Path to the file to read",
               schemaPropD "encoding" "string" "File encoding" (Json.str "utf-8")] ["path"]),
   ("write_file", "Write content to a file",
    objSchema [schemaProp "path" "string" "Path to the file to write",
               schemaProp "content" "string" "Content to write to the file",
               schemaPropD "encoding" "string" "File encoding" (Json.str "utf-8"),
               schemaPropD "append" "boolean" "Append to file instead of overwriting"
                 (Json.bool false)] ["path", "content"]),
   ("list_files", "List files in a directory",
    objSchema [schemaPropD "path" "string" "Directory path" (Json.str "."),
               schemaPropD "pattern" "string" "Glob pattern for filtering" (Json.str "*"),
               schemaPropD "recursive" "boolean" "Search recursively" (Json.bool false)] []),
   ("create_directory", "Create a directory",
    objSchema [schemaProp "path" "string" "Directory path to create",
               schemaPropD "parents" "boolean" "Create parent directories if needed"
                 (Json.bool true)] ["path"]),
   ("delete_file", "Delete a file or directory",
    objSchema [schemaProp "path" "string" "Path to delete",
               schemaPropD "recursive" "boolean" "Delete directories recursively"
                 (Json.bool false)] ["path"]),
   ("move_file", "Move or rename a file or directory",
    objSchema [schemaProp "source" "string" "Source path",
               schemaProp "destination" "string" "Destination path"]
      ["source", "destination"]),
   ("copy_file", "Copy a file or directory",
    objSchema [schemaProp "source" "string" "Source path",
               schemaProp "destination" "string" "Destination path",
               schemaPropD "recursive" "boolean" "Copy directories recursively"
                 (Json.bool false)] ["source", "destination"]),
   ("get_file_info", "Get detailed information about a file",
    objSchema [schemaProp "path" "string" "File path"] ["path"]),
   ("search_files", "Search for files containing specific text",
    objSchema [schemaPropD "directory" "string" "Directory to search in" (Json.str "."),
               schemaProp "pattern" "string" "Text pattern to search for",
               schemaPropD "file_pattern" "string" "File pattern to search in"
                 (Json.str "*")] ["pattern"])]

/-- `MCPFileServer.handle_list_tools`: echo the registry. -/
def handle_list_tools : Json :=
  Json.obj [("tools", Json.arr (toolsRegistry.map (fun t =>
    Json.obj [("name", Json.str t.1), ("description", Json.str t.2.1),
              ("inputSchema", t.2.2)])))]

/-- `MCPFileServer.handle_call_tool`: look the tool name up in the handler
table; a known name runs its handler and yields the ToolResult dict, an
unknown (or absent) name yields a dict carrying an `error` member with code
`-32601`.  Either way the value is a plain dict returned to `handle_request`. -/
def handle_call_tool (ctx : Ctx) (fs : FS) (request : Request) : FS × Json :=
  let ps := request.params.getD {}
  let tool_name := ps.name
  let arguments := ps.arguments
  match tool_name with
  | some "read_file" => let r := read_file ctx fs arguments; (r.1, toolResultJson r.2)
  | some "write_file" => let r := write_file ctx fs arguments; (r.1, toolResultJson r.2)
  | some "list_files" => let r := list_files ctx fs arguments; (r.1, toolResultJson r.2)
  | some "create_directory" =>
    let r := create_directory ctx fs arguments; (r.1, toolResultJson r.2)
  | some "delete_file" => let r := delete_file ctx fs arguments; (r.1, toolResultJson r.2)
  | some "move_file" => let r := move_file ctx fs arguments; (r.1, toolResultJson r.2)
  | some "copy_file" => let r := copy_file ctx fs arguments; (r.1, toolResultJson r.2)
  | some "get_file_info" =>
    let r := get_file_info ctx fs arguments; (r.1, toolResultJson r.2)
  | some "search_files" => let r := search_files ctx fs arguments; (r.1, toolResultJson r.2)
  | _ =>
    (fs, Json.obj [("error", Json.obj [("code", Json.num (-32601)),
      ("message", Json.str ("Unknown tool: " ++ pyStrOfOpt tool_name))])])

/-- `MCPFileServer.handle_request`: dispatch on `method`; the three known
methods have their handler's return value wrapped as the `result` member
(whatever dict it is), every other method gets a top-level `error` member
with code `-32601`. -/
def handle_request (ctx : Ctx) (fs : FS) (request : Request) : FS × Response :=
  match request.method with
  | some "initialize" => (fs, ⟨request.id, RespBody.result handle_init⟩)
  | some "tools/list" => (fs, ⟨request.id, RespBody.result handle_list_tools⟩)
  | some "tools/call" =>
    let r := handle_call_tool ctx fs request
    (r.1, ⟨request.id, RespBody.result r.2⟩)
  | m => (fs, ⟨request.id, RespBody.error (-32601) ("Method not found: " ++ pyStrOfOpt m)⟩)

/-- The `-32700` response written for an unparsable line (`id` is `null`). -/
def parseErrorResponse (e : String) : Response :=
  ⟨Json.null, RespBody.error (-32700) ("Parse error: " ++ e)⟩

/-- `MCPFileServer.run`: one input line at a time; a line is either a parsed
request or a `json.JSONDecodeError` message.  A parse failure emits the
`-32700` response and the loop continues; end of input ends the loop. -/
def run (ctx : Ctx) (fs : FS) : List (Except String Request) → List Response
  | [] => []
  | .error e :: rest => parseErrorResponse e :: run ctx fs rest
  | .ok request :: rest =>
    let r := handle_request ctx fs request
    r.2 :: run ctx r.1 rest

/-! ### Test fixtures (concrete collaborator instances for witnesses) -/

/-- A context whose resolver is the identity (every path already absolute
and user-expanded), with trivial hashing/mime/glob collaborators. -/
def idCtx : Ctx :=
  ⟨fun p => some p, fun p => p, fun _ => none, fun _ => "d41d8cd9", fun s => s,
   fun _ => .ok [], defaultMeta⟩

def emptyFS : FS := ⟨[], []⟩

/-! ### Claim theorems -/

/-- C1 (code_bug evidence): on a `tools/call` request naming the
unregistered tool `not_a_tool`, the server's response carries a `result`
member whose value is the dict `{error: {code: -32601, ...}}`; the response
has no top-level `error` member.  This contradicts the claim that unknown
tools yield a protocol-level error: `handle_call_tool` builds the error
dict but `handle_request` wraps every handler return value as `result`. -/
theorem C1_unknown_tool_wrapped_in_result :
    (handle_request idCtx emptyFS
        { id := Json.num 1, method := some "tools/call",
          params := some { name := some "not_a_tool" } }).2.body =
      RespBody.result (Json.obj [("error", Json.obj [("code", Json.num (-32601)),
        ("message", Json.str "Unknown tool: not_a_tool")])]) ∧
    ∀ c m, (handle_request idCtx emptyFS
        { id := Json.num 1, method := some "tools/call",
          params := some { name := some "not_a_tool" } }).2.body ≠
      RespBody.error c m := by
  exact ⟨rfl, fun c m h => RespBody.noConfusion h⟩

/-- C3: `is_safe_path` returns `false` exactly when resolution fails
(fail closed) or the resolved absolute string starts with one of the fixed
deny-list prefixes; every other path is considered safe. -/
theorem C3_is_safe_path_spec (ctx : Ctx) (p : String) :
    is_safe_path ctx p = false ↔
      ctx.resolve p = none ∨
        ∃ a, ctx.resolve p = some a ∧
          denyPrefixes.any (fun d => pyStartsWith a d) = true := by
  unfold is_safe_path
  cases h : ctx.resolve p with
  | none => simp
  | some a => simp [Bool.not_eq_false']

/-- C2: whenever the Safety Gate rejects a handler's path-valued argument
(the `path` of `read_file`, `write_file`, `create_directory`, `delete_file`,
`get_file_info`; the `path` of `list_files`; the `directory` of
`search_files`; either of `source`/`destination` of `move_file` and
`copy_file`), that handler returns the restricted-access soft error, leaves
the filesystem exactly as it was, and returns normally. -/
theorem C2_safety_gate (ctx : Ctx) (fs : FS) (args : Args) :
    (is_safe_path ctx (args.path.getD "") = false →
       read_file ctx fs args = (fs, accessRestricted) ∧
       write_file ctx fs args = (fs, accessRestricted) ∧
       create_directory ctx fs args = (fs, accessRestricted) ∧
       delete_file ctx fs args = (fs, accessRestricted) ∧
       get_file_info ctx fs args = (fs, accessRestricted)) ∧
    (is_safe_path ctx (args.path.getD ".") = false →
       list_files ctx fs args = (fs, accessRestricted)) ∧
    (is_safe_path ctx (args.directory.getD ".") = false →
       search_files ctx fs args = (fs, accessRestricted)) ∧
    ((is_safe_path ctx (args.source.getD "") = false ∨
      is_safe_path ctx (args.destination.getD "") = false) →
       move_file ctx fs args = (fs, accessRestricted) ∧
       copy_file ctx fs args = (fs, accessRestricted)) := by
  refine ⟨fun h => ⟨?_, ?_, ?_, ?_, ?_⟩, fun h => ?_, fun h => ?_, fun h => ⟨?_, ?_⟩⟩
  · simp [read_file, h]
  · simp [write_file, h]
  · simp [create_directory, h]
  · simp [delete_file, h]
  · simp [get_file_info, h]
  · simp [list_files, h]
  · simp [search_files, h]
  · rcases h with h | h <;> simp [move_file, h]
  · rcases h with h | h <;> simp [copy_file, h]

/-- C2 witness: concretely, `read_file` on `/etc/passwd` and `write_file`
on `/etc/anything` (and the other handlers on paths under `/etc`) return
the restricted soft error and do not change the filesystem. -/
theorem C2_safety_gate_witness :
    read_file idCtx emptyFS { path := some "/etc/passwd" } =
      (emptyFS, accessRestricted) ∧
    write_file idCtx emptyFS { path := some "/etc/anything", content := some "x" } =
      (emptyFS, accessRestricted) ∧
    move_file idCtx emptyFS { source := some "/etc/a", destination := some "/tmp/b" } =
      (emptyFS, accessRestricted) := by
  refine ⟨?_, ?_, ?_⟩
  · exact ((C2_safety_gate idCtx emptyFS { path := some "/etc/passwd" }).1 (by decide)).1
  · exact ((C2_safety_gate idCtx emptyFS
      { path := some "/etc/anything", content := some "x" }).1 (by decide)).2.1
  · exact ((C2_safety_gate idCtx emptyFS
      { source := some "/etc/a", destination := some "/tmp/b" }).2.2.2
      (Or.inl (by decide))).1

/-- A ToolResult whose `content` is a single block of type `"text"`. -/
def oneTextBlock (r : ToolResult) : Prop :=
  r.content.length = 1 ∧ ∀ b ∈ r.content, b.type = "text"

theorem oneTextBlock_textResult (s : String) : oneTextBlock (textResult s) := by
  simp [oneTextBlock, textResult]

theorem read_file_shape (ctx : Ctx) (fs : FS) (args : Args) :
    ∃ s, (read_file ctx fs args).2 = textResult s := by
  unfold read_file
  dsimp only
  split
  · split <;> exact ⟨_, rfl⟩
  · exact ⟨_, rfl⟩

theorem write_file_shape (ctx : Ctx) (fs : FS) (args : Args) :
    ∃ s, (write_file ctx fs args).2 = textResult s := by
  unfold write_file
  dsimp only
  split
  · split <;> exact ⟨_, rfl⟩
  · exact ⟨_, rfl⟩

theorem list_files_shape (ctx : Ctx) (fs : FS) (args : Args) :
    ∃ s, (list_files ctx fs args).2 = textResult s := by
  unfold list_files
  dsimp only
  split
  · split <;> exact ⟨_, rfl⟩
  · exact ⟨_, rfl⟩

theorem create_directory_shape (ctx : Ctx) (fs : FS) (args : Args) :
    ∃ s, (create_directory ctx fs args).2 = textResult s := by
  unfold create_directory
  dsimp only
  split
  · split <;> exact ⟨_, rfl⟩
  · exact ⟨_, rfl⟩

theorem delete_file_shape (ctx : Ctx) (fs : FS) (args : Args) :
    ∃ s, (delete_file ctx fs args).2 = textResult s := by
  unfold delete_file
  dsimp only
  split
  · split <;> exact ⟨_, rfl⟩
  · exact ⟨_, rfl⟩

theorem move_file_shape (ctx : Ctx) (fs : FS) (args : Args) :
    ∃ s, (move_file ctx fs args).2 = textResult s := by
  unfold move_file
  dsimp only
  split
  · split <;> exact ⟨_, rfl⟩
  · exact ⟨_, rfl⟩

theorem copy_file_shape (ctx : Ctx) (fs : FS) (args : Args) :
    ∃ s, (copy_file ctx fs args).2 = textResult s := by
  unfold copy_file
  dsimp only
  split
  · split <;> exact ⟨_, rfl⟩
  · exact ⟨_, rfl⟩

theorem get_file_info_shape (ctx : Ctx) (fs : FS) (args : Args) :
    ∃ s, (get_file_info ctx fs args).2 = textResult s := by
  unfold get_file_info
  dsimp only
  split
  · split <;> exact ⟨_, rfl⟩
  · exact ⟨_, rfl⟩

theorem search_files_shape (ctx : Ctx) (fs : FS) (args : Args) :
    ∃ s, (search_files ctx fs args).2 = textResult s := by
  unfold search_files
  dsimp only
  split
  · split <;> exact ⟨_, rfl⟩
  · exact ⟨_, rfl⟩

/-- C10: every one of the nine handlers, on every arguments mapping and
every filesystem (success, soft error, or restricted path alike), returns a
ToolResult whose `content` is exactly one block of type `"text"`; composite
results are carried as a serialized string inside that block. -/
theorem C10_single_text_block (ctx : Ctx) (fs : FS) (args : Args) :
    oneTextBlock (read_file ctx fs args).2 ∧
    oneTextBlock (write_file ctx fs args).2 ∧
    oneTextBlock (list_files ctx fs args).2 ∧
    oneTextBlock (create_directory ctx fs args).2 ∧
    oneTextBlock (delete_file ctx fs args).2 ∧
    oneTextBlock (move_file ctx fs args).2 ∧
    oneTextBlock (copy_file ctx fs args).2 ∧
    oneTextBlock (get_file_info ctx fs args).2 ∧
    oneTextBlock (search_files ctx fs args).2 := by
  obtain ⟨s1, h1⟩ := read_file_shape ctx fs args
  obtain ⟨s2, h2⟩ := write_file_shape ctx fs args
  obtain ⟨s3, h3⟩ := list_files_shape ctx fs args
  obtain ⟨s4, h4⟩ := create_directory_shape ctx fs args
  obtain ⟨s5, h5⟩ := delete_file_shape ctx fs args
  obtain ⟨s6, h6⟩ := move_file_shape ctx fs args
  obtain ⟨s7, h7⟩ := copy_file_shape ctx fs args
  obtain ⟨s8, h8⟩ := get_file_info_shape ctx fs args
  obtain ⟨s9, h9⟩ := search_files_shape ctx fs args
  rw [h1, h2, h3, h4, h5, h6, h7, h8, h9]
  exact ⟨oneTextBlock_textResult s1, oneTextBlock_textResult s2, oneTextBlock_textResult s3,
    oneTextBlock_textResult s4, oneTextBlock_textResult s5, oneTextBlock_textResult s6,
    oneTextBlock_textResult s7, oneTextBlock_textResult s8, oneTextBlock_textResult s9⟩

/-- C5: no handler lets an operation-specific exception escape.  For each
of the nine handlers, whenever the `try`-block of the operation fails with
exception text `e` (filesystem, decoding, hashing, globbing failures
alike), the handler returns normally with a single-text-block ToolResult
narrating the failure, leaving the filesystem unchanged — a soft error, not
a protocol error. -/
theorem C5_exceptions_become_soft_errors (ctx : Ctx) (fs : FS) (args : Args) (e : String) :
    (is_safe_path ctx (args.path.getD "") = true →
      (read_attempt ctx fs (args.path.getD "") (args.encoding.getD "utf-8") = .error e →
         read_file ctx fs args = (fs, textResult ("Error reading file: " ++ e))) ∧
      (openWrite fs (args.path.getD "") (args.content.getD "")
          (args.append.getD false) ctx.newMeta = .error e →
         write_file ctx fs args = (fs, textResult ("Error writing file: " ++ e))) ∧
      (pathMkdir fs (args.path.getD "") (args.parents.getD true) = .error e →
         create_directory ctx fs args = (fs, textResult ("Error creating directory: " ++ e))) ∧
      (delete_attempt fs (args.path.getD "") (args.recursive.getD false) = .error e →
         delete_file ctx fs args = (fs, textResult ("Error deleting file: " ++ e))) ∧
      (info_attempt ctx fs (args.path.getD "") = .error e →
         get_file_info ctx fs args = (fs, textResult ("Error getting file info: " ++ e)))) ∧
    (is_safe_path ctx (args.path.getD ".") = true →
      list_attempt ctx fs (args.path.getD ".") (args.pattern.getD "*")
          (args.recursive.getD false) = .error e →
        list_files ctx fs args = (fs, textResult ("Error listing files: " ++ e))) ∧
    (is_safe_path ctx (args.directory.getD ".") = true →
      search_attempt ctx fs (args.directory.getD ".") (args.pattern.getD "")
          (args.file_pattern.getD "*") = .error e →
        search_files ctx fs args = (fs, textResult ("Error searching files: " ++ e))) ∧
    (is_safe_path ctx (args.source.getD "") = true →
      is_safe_path ctx (args.destination.getD "") = true →
      (shutilMove fs (args.source.getD "") (args.destination.getD "") = .error e →
         move_file ctx fs args = (fs, textResult ("Error moving file: " ++ e))) ∧
      (copy_attempt fs (args.source.getD "") (args.destination.getD "")
          (args.recursive.getD false) = .error e →
         copy_file ctx fs args = (fs, textResult ("Error copying file: " ++ e)))) := by
  refine ⟨fun hs => ⟨fun h => ?_, fun h => ?_, fun h => ?_, fun h => ?_, fun h => ?_⟩,
    fun hs h => ?_, fun hs h => ?_, fun hs hd => ⟨fun h => ?_, fun h => ?_⟩⟩
  · simp [read_file, hs, h]
  · simp [write_file, hs, h]
  · simp [create_directory, hs, h]
  · simp [delete_file, hs, h]
  · simp [get_file_info, hs, h]
  · simp [list_files, hs, h]
  · simp [search_files, hs, h]
  · simp [move_file, hs, hd, h]
  · simp [copy_file, hs, hd, h]

/-- C5 witness: concretely, deleting a missing path, reading a missing
path and moving a missing path all fail inside the `try` block and come
back as narrated soft errors with the filesystem unchanged. -/
theorem C5_exceptions_become_soft_errors_witness :
    delete_file idCtx emptyFS { path := some "missing" } =
      (emptyFS, textResult "Error deleting file: FileNotFoundError") ∧
    read_file idCtx emptyFS { path := some "missing" } =
      (emptyFS, textResult "Error reading file: FileNotFoundError") ∧
    move_file idCtx emptyFS { source := some "missing", destination := some "b" } =
      (emptyFS, textResult "Error moving file: FileNotFoundError") := by
  have h1 := C5_exceptions_become_soft_errors idCtx emptyFS
    { path := some "missing" } "FileNotFoundError"
  have h2 := C5_exceptions_become_soft_errors idCtx emptyFS
    { source := some "missing", destination := some "b" } "FileNotFoundError"
  exact ⟨(h1.1 (by decide)).2.2.2.1 rfl, (h1.1 (by decide)).1 rfl,
    (h2.2.2.2 (by decide) (by decide)).1 rfl⟩

/-- C4: the request loop answers every input line — one response per line,
in order.  A line that fails JSON parsing (carried as `.error e`) is
answered by the `-32700` response with `id` null, and the loop goes on: a
well-formed request at any later position is still dispatched through
`handle_request` (at the filesystem state reached by then) and answered.
The loop is a total function, so it cannot crash on a malformed line. -/
theorem C4_request_loop (ctx : Ctx) (fs : FS) (lines : List (Except String Request)) :
    (run ctx fs lines).length = lines.length ∧
    (∀ i e, lines.get? i = some (.error e) →
       (run ctx fs lines).get? i = some (parseErrorResponse e)) ∧
    (∀ i req, lines.get? i = some (.ok req) →
       ∃ fs2, (run ctx fs lines).get? i = some (handle_request ctx fs2 req).2) := by
  induction lines generalizing fs with
  | nil => refine ⟨rfl, fun i e h => ?_, fun i req h => ?_⟩ <;> cases i <;> cases h
  | cons l rest ih =>
    cases l with
    | error e =>
      refine ⟨by simpa [run] using (ih fs).1, fun i e2 h => ?_, fun i req h => ?_⟩
      · cases i with
        | zero => cases h; rfl
        | succ n => exact (ih fs).2.1 n e2 h
      · cases i with
        | zero => cases h
        | succ n => exact (ih fs).2.2 n req h
    | ok request =>
      refine ⟨by simpa [run] using (ih (handle_request ctx fs request).1).1,
        fun i e2 h => ?_, fun i req h => ?_⟩
      · cases i with
        | zero => cases h
        | succ n => exact (ih (handle_request ctx fs request).1).2.1 n e2 h
      · cases i with
        | zero => cases h; exact ⟨fs, rfl⟩
        | succ n => exact (ih (handle_request ctx fs request).1).2.2 n req h

/-- C4 witness: a malformed first line gets the `-32700` null-id response
and the valid request on the second line is still answered. -/
theorem C4_request_loop_witness :
    (run idCtx emptyFS
        [Except.error "Expecting value", Except.ok { id := Json.num 2 }]).length = 2 ∧
    (run idCtx emptyFS
        [Except.error "Expecting value", Except.ok { id := Json.num 2 }]).get? 0 =
      some (parseErrorResponse "Expecting value") ∧
    ∃ fs2, (run idCtx emptyFS
        [Except.error "Expecting value", Except.ok { id := Json.num 2 }]).get? 1 =
      some (handle_request idCtx fs2 { id := Json.num 2 }).2 := by
  have h := C4_request_loop idCtx emptyFS
    [Except.error "Expecting value", Except.ok { id := Json.num 2 }]
  exact ⟨h.1, h.2.1 0 "Expecting value" rfl, h.2.2 1 { id := Json.num 2 } rfl⟩

theorem lookup_filter_out {α : Type} (l : List (String × α)) (p : String)
    (f : String × α → Bool) (hf : ∀ v, f (p, v) = false) :
    (l.filter f).lookup p = none := by
  induction l with
  | nil => rfl
  | cons a rest ih =>
    simp only [List.filter_cons]
    by_cases h : f a = true
    · rw [if_pos h]
      have hne : (p == a.1) = false := by
        rcases Bool.eq_false_or_eq_true (p == a.1) with hb | hb
        · have hpa : p = a.1 := by simpa using hb
          have hpv : f (p, a.2) = true := by rw [hpa]; simpa using h
          rw [hf a.2] at hpv
          exact Bool.noConfusion hpv
        · exact hb
      cases a with
      | mk k v => simpa [List.lookup, hne] using ih
    · rw [if_neg h]
      exact ih

/-- C6: deleting a non-empty directory without `recursive` (absent or
`false`) is refused with the "Directory not empty" soft error and the
filesystem is unchanged; with `recursive := true` the directory and every
entry below it are removed, and `get_file_info` on the path afterwards
reports "File not found". -/
theorem C6_delete_nonempty_guard (ctx : Ctx) (fs : FS) (p : String)
    (hsafe : is_safe_path ctx p = true)
    (hdir : osPathIsdir fs p = true) (hne : hasChild fs p = true) :
    (∀ r : Option Bool, (r = none ∨ r = some false) →
       delete_file ctx fs { path := some p, recursive := r } =
         (fs, textResult "Error deleting file: Directory not empty")) ∧
    (delete_file ctx fs { path := some p, recursive := some true }).2 =
       textResult ("Successfully deleted: " ++ p) ∧
    osPathExists (delete_file ctx fs { path := some p, recursive := some true }).1 p = false ∧
    (∀ q, isUnder p q = true →
       osPathExists (delete_file ctx fs { path := some p, recursive := some true }).1 q = false) ∧
    get_file_info ctx (delete_file ctx fs { path := some p, recursive := some true }).1
        { path := some p } =
      ((delete_file ctx fs { path := some p, recursive := some true }).1,
       textResult ("File not found: " ++ p)) := by
  have hdel : delete_file ctx fs { path := some p, recursive := some true } =
      (⟨fs.files.filter (fun q => !(q.1 == p || isUnder p q.1)),
        fs.dirs.filter (fun q => !(q.1 == p || isUnder p q.1))⟩,
       textResult ("Successfully deleted: " ++ p)) := by
    simp [delete_file, hsafe, delete_attempt, hdir, shutilRmtree]
  have hgoneSelf :
      osPathExists (delete_file ctx fs { path := some p, recursive := some true }).1 p = false := by
    rw [hdel]
    simp only [osPathExists, osPathIsfile, osPathIsdir, lookupFile, lookupDir]
    rw [lookup_filter_out fs.files p _ (fun v => by simp),
        lookup_filter_out fs.dirs p _ (fun v => by simp)]
    rfl
  refine ⟨fun r hr => ?_, ?_, hgoneSelf, fun q hq => ?_, ?_⟩
  · rcases hr with hr | hr <;> rw [hr] <;>
      simp [delete_file, hsafe, delete_attempt, hdir, osRmdir, hne]
  · rw [hdel]
  · rw [hdel]
    simp only [osPathExists, osPathIsfile, osPathIsdir, lookupFile, lookupDir]
    rw [lookup_filter_out fs.files q _ (fun v => by simp [hq]),
        lookup_filter_out fs.dirs q _ (fun v => by simp [hq])]
    rfl
  · simp [get_file_info, hsafe, info_attempt, hgoneSelf]

/-- C6 witness: a directory `d` containing `d/f`; the non-recursive delete
is refused, the recursive one removes both entries, and `get_file_info d`
then reports "File not found: d". -/
theorem C6_delete_nonempty_guard_witness :
    delete_file idCtx ⟨[("d/f", ⟨"x", true, true, defaultMeta⟩)], [("d", defaultMeta)]⟩
        { path := some "d", recursive := some false } =
      (⟨[("d/f", ⟨"x", true, true, defaultMeta⟩)], [("d", defaultMeta)]⟩,
       textResult "Error deleting file: Directory not empty") ∧
    (delete_file idCtx ⟨[("d/f", ⟨"x", true, true, defaultMeta⟩)], [("d", defaultMeta)]⟩
        { path := some "d", recursive := some true }).2 =
      textResult "Successfully deleted: d" ∧
    get_file_info idCtx
        (delete_file idCtx ⟨[("d/f", ⟨"x", true, true, defaultMeta⟩)], [("d", defaultMeta)]⟩
          { path := some "d", recursive := some true }).1 { path := some "d" } =
      ((delete_file idCtx ⟨[("d/f", ⟨"x", true, true, defaultMeta⟩)], [("d", defaultMeta)]⟩
          { path := some "d", recursive := some true }).1,
       textResult "File not found: d") := by
  have h := C6_delete_nonempty_guard idCtx
    ⟨[("d/f", ⟨"x", true, true, defaultMeta⟩)], [("d", defaultMeta)]⟩ "d"
    (by decide) (by decide) (by decide)
  exact ⟨h.1 (some false) (Or.inr rfl), h.2.1, h.2.2.2.2⟩

/-- C7: copying a directory with `recursive` absent or `false` is refused
with the soft error instructing recursive use and copies nothing; with
`recursive := true` (onto a fresh destination) the whole tree is
reproduced: every file and every directory below the source reappears at
the remapped path below the destination with the identical entry
(byte-for-byte content and metadata), the old entries are kept, and the
destination directory exists.  A plain-file source is copied bytewise with
its metadata preserved. -/
theorem C7_copy_guard (ctx : Ctx) (fs : FS) (src dst : String)
    (hs : is_safe_path ctx src = true) (hd : is_safe_path ctx dst = true) :
    (osPathIsdir fs src = true →
      (∀ r : Option Bool, (r = none ∨ r = some false) →
         copy_file ctx fs { source := some src, destination := some dst, recursive := r } =
           (fs, textResult "Error: Use recursive=true to copy directories")) ∧
      (osPathExists fs dst = false →
        (copy_file ctx fs { source := some src, destination := some dst, recursive := some true }).2 =
          textResult ("Successfully copied " ++ src ++ " to " ++ dst) ∧
        (∀ q e2, (q, e2) ∈ fs.files → isUnder src q = true →
          (mapUnder src dst q, e2) ∈ (copy_file ctx fs { source := some src, destination := some dst, recursive := some true }).1.files) ∧
        (∀ q m, (q, m) ∈ fs.dirs → isUnder src q = true →
          (mapUnder src dst q, m) ∈ (copy_file ctx fs { source := some src, destination := some dst, recursive := some true }).1.dirs) ∧
        (∀ pr, pr ∈ fs.files → pr ∈ (copy_file ctx fs { source := some src, destination := some dst, recursive := some true }).1.files) ∧
        osPathIsdir (copy_file ctx fs { source := some src, destination := some dst, recursive := some true }).1 dst = true)) ∧
    (∀ ent, osPathIsdir fs src = false → lookupFile fs src = some ent →
       ent.readable = true → osPathIsdir fs dst = false →
       copy_file ctx fs { source := some src, destination := some dst } =
         (setFile fs dst ent, textResult ("Successfully copied " ++ src ++ " to " ++ dst)) ∧
       lookupFile (copy_file ctx fs { source := some src, destination := some dst }).1 dst =
         some ent) := by
  constructor
  · intro hdir
    constructor
    · intro r hr
      rcases hr with hr | hr <;> rw [hr] <;>
        simp [copy_file, hs, hd, copy_attempt, hdir]
    · intro hfree
      have hcopy : copy_file ctx fs { source := some src, destination := some dst, recursive := some true } =
          (⟨fs.files ++ (fs.files.filter (fun q => isUnder src q.1)).map
              (fun q => (mapUnder src dst q.1, q.2)),
            fs.dirs ++ [(dst, defaultMeta)] ++
              (fs.dirs.filter (fun q => isUnder src q.1)).map
                (fun q => (mapUnder src dst q.1, q.2))⟩,
           textResult ("Successfully copied " ++ src ++ " to " ++ dst)) := by
        simp [copy_file, hs, hd, copy_attempt, hdir, shutilCopytree, hfree]
      refine ⟨by rw [hcopy], fun q e2 hmem hu => ?_, fun q m hmem hu => ?_,
        fun pr hmem => ?_, ?_⟩
      · rw [hcopy]
        exact List.mem_append.mpr (Or.inr (List.mem_map.mpr
          ⟨(q, e2), List.mem_filter.mpr ⟨hmem, by simpa using hu⟩, rfl⟩))
      · rw [hcopy]
        refine List.mem_append.mpr (Or.inr ?_)
        exact List.mem_map.mpr ⟨(q, m), List.mem_filter.mpr ⟨hmem, by simpa using hu⟩, rfl⟩
      · rw [hcopy]
        exact List.mem_append.mpr (Or.inl hmem)
      · rw [hcopy]
        simp only [osPathIsdir, lookupDir]
        simp
        exact ⟨defaultMeta, Or.inr (Or.inl rfl)⟩
  · intro ent hnd hlook hread hdd
    have hcopy : copy_file ctx fs { source := some src, destination := some dst } =
        (setFile fs dst ent, textResult ("Successfully copied " ++ src ++ " to " ++ dst)) := by
      simp [copy_file, hs, hd, copy_attempt, hnd, shutilCopy2, hlook, hread, hdd]
    refine ⟨hcopy, ?_⟩
    rw [hcopy]
    simp [lookupFile, setFile, List.lookup]

/-- C7 fixture: a directory `a` with a file, a nested subdirectory and a
nested file. -/
def fs7 : FS :=
  ⟨[("a/x", ⟨"hello", true, true, defaultMeta⟩),
    ("a/sub/y", ⟨"world", true, true, defaultMeta⟩)],
   [("a", defaultMeta), ("a/sub", defaultMeta)]⟩

def fsPlain : FS := ⟨[("f", ⟨"data", true, true, ⟨3, 4, 5, "644", 7, 8⟩⟩)], []⟩

/-- C7 witness: the guard refuses `copy_file a b` without `recursive`; with
`recursive := true` the nested file reappears byte-for-byte at `b/sub/y`;
and the plain file `f` is copied to `g` with content and metadata intact. -/
theorem C7_copy_guard_witness :
    copy_file idCtx fs7 { source := some "a", destination := some "b", recursive := some false } =
      (fs7, textResult "Error: Use recursive=true to copy directories") ∧
    ("b/sub/y", (⟨"world", true, true, defaultMeta⟩ : FileEntry)) ∈
      (copy_file idCtx fs7 { source := some "a", destination := some "b", recursive := some true }).1.files ∧
    lookupFile (copy_file idCtx fsPlain { source := some "f", destination := some "g" }).1 "g" =
      some ⟨"data", true, true, ⟨3, 4, 5, "644", 7, 8⟩⟩ := by
  have h := C7_copy_guard idCtx fs7 "a" "b" (by decide) (by decide)
  have h2 := C7_copy_guard idCtx fsPlain "f" "g" (by decide) (by decide)
  refine ⟨(h.1 (by decide)).1 (some false) (Or.inr rfl), ?_, ?_⟩
  · exact ((h.1 (by decide)).2 (by decide)).2.1 "a/sub/y"
      ⟨"world", true, true, defaultMeta⟩ (by decide) (by decide)
  · exact (h2.2 ⟨"data", true, true, ⟨3, 4, 5, "644", 7, 8⟩⟩
      (by decide) rfl rfl (by decide)).2

theorem addDir_files (fs : FS) (p : String) : (addDir fs p).files = fs.files := by
  unfold addDir
  split <;> rfl

theorem addDirs_files (ps : List String) (fs : FS) : (addDirs fs ps).files = fs.files := by
  induction ps generalizing fs with
  | nil => rfl
  | cons a rest ih =>
    rw [show addDirs fs (a :: rest) = addDirs (addDir fs a) rest from rfl, ih, addDir_files]

theorem osPathIsdir_addDir_self (fs : FS) (p : String) :
    osPathIsdir (addDir fs p) p = true := by
  unfold addDir
  by_cases h : osPathIsdir fs p = true
  · rw [if_pos h]
    exact h
  · rw [if_neg h]
    simp [osPathIsdir, lookupDir, List.lookup]

theorem osPathIsdir_addDir_mono (fs : FS) (p q : String)
    (h : osPathIsdir fs q = true) : osPathIsdir (addDir fs p) q = true := by
  unfold addDir
  by_cases hp : osPathIsdir fs p = true
  · rw [if_pos hp]
    exact h
  · rw [if_neg hp]
    simp only [osPathIsdir, lookupDir, List.lookup] at h ⊢
    cases hqp : q == p
    · simpa [hqp] using h
    · simp [hqp]

theorem osPathIsdir_addDirs_mono (ps : List String) (fs : FS) (q : String)
    (h : osPathIsdir fs q = true) : osPathIsdir (addDirs fs ps) q = true := by
  induction ps generalizing fs with
  | nil => exact h
  | cons a rest ih => exact ih (addDir fs a) (osPathIsdir_addDir_mono fs a q h)

theorem osPathIsdir_addDirs_of_mem (ps : List String) (fs : FS) (p : String)
    (h : p ∈ ps) : osPathIsdir (addDirs fs ps) p = true := by
  induction ps generalizing fs with
  | nil => cases h
  | cons a rest ih =>
    rcases List.mem_cons.mp h with hpa | hm
    · rw [hpa]
      exact osPathIsdir_addDirs_mono rest (addDir fs a) a (osPathIsdir_addDir_self fs a)
    · exact ih (addDir fs a) hm

/-- C9 counterexample: the claim quantifies over every safe path with
`parents = true`, but a safe path occupied by an existing regular file
refutes it — `Path.mkdir(exist_ok=True)` raises `FileExistsError` when the
target is a non-directory, so the first call already returns a soft error,
not a success. -/
theorem C9_counterexample :
    (create_directory idCtx ⟨[("f", ⟨"x", true, true, defaultMeta⟩)], []⟩
        { path := some "f", parents := some true }).2 =
      textResult "Error creating directory: FileExistsError" ∧
    (create_directory idCtx ⟨[("f", ⟨"x", true, true, defaultMeta⟩)], []⟩
        { path := some "f", parents := some true }).2 ≠
      textResult "Successfully created directory: f" := by
  exact ⟨rfl, by decide⟩

/-- C9 (amended): `create_directory` is idempotent for every safe path that
is not occupied by an existing regular file and — when it must be freshly
created — has `parents = true` and no regular file on its ancestor chain:
both calls return the success ToolResult and the second call is a no-op
(the filesystem of the first call is returned unchanged).  In particular an
already-existing directory is reported as success, not as an error. -/
theorem C9_create_directory_idempotent (ctx : Ctx) (fs : FS) (p : String) (parents : Bool)
    (hsafe : is_safe_path ctx p = true)
    (hfile : osPathIsfile fs p = false)
    (hpre : osPathIsdir fs p = true ∨ (parents = true ∧ hasFileAncestor fs p = false)) :
    ∃ fs1,
      create_directory ctx fs { path := some p, parents := some parents } =
        (fs1, textResult ("Successfully created directory: " ++ p)) ∧
      create_directory ctx fs1 { path := some p, parents := some parents } =
        (fs1, textResult ("Successfully created directory: " ++ p)) := by
  by_cases hd : osPathIsdir fs p = true
  · refine ⟨fs, ?_, ?_⟩ <;> simp [create_directory, hsafe, pathMkdir, hfile, hd]
  · have hd2 : osPathIsdir fs p = false := by
      rcases Bool.eq_false_or_eq_true (osPathIsdir fs p) with hb | hb
      · exact absurd hb hd
      · exact hb
    rcases hpre with hdir | hpa
    · exact absurd hdir hd
    · rcases hpa with ⟨hp, hanc⟩
      rw [hp]
      refine ⟨addDirs fs (strictAncestors p ++ [p]), ?_, ?_⟩
      · simp [create_directory, hsafe, pathMkdir, hfile, hd2, hanc]
      · have hfile1 : osPathIsfile (addDirs fs (strictAncestors p ++ [p])) p = false := by
          simp only [osPathIsfile, lookupFile, addDirs_files]
          exact hfile
        have hdir1 : osPathIsdir (addDirs fs (strictAncestors p ++ [p])) p = true :=
          osPathIsdir_addDirs_of_mem _ fs p (List.mem_append.mpr (Or.inr (by simp)))
        simp [create_directory, hsafe, pathMkdir, hfile1, hdir1]

/-- C9 witness: on an empty filesystem, `create_directory "a/b"` with
`parents = true` succeeds and immediately repeating it succeeds as a no-op. -/
theorem C9_create_directory_idempotent_witness :
    ∃ fs1,
      create_directory idCtx emptyFS { path := some "a/b", parents := some true } =
        (fs1, textResult "Successfully created directory: a/b") ∧
      create_directory idCtx fs1 { path := some "a/b", parents := some true } =
        (fs1, textResult "Successfully created directory: a/b") := by
  exact C9_create_directory_idempotent idCtx emptyFS "a/b" true (by decide) (by decide)
    (Or.inr ⟨rfl, by decide⟩)

theorem strTake_length_le (n : Nat) (s : String) : (strTake n s).length ≤ n := by
  have h : (strTake n s).length = (s.toList.take n).length := rfl
  rw [h, List.length_take]
  exact min_le_left _ _

theorem collectMatches_length_le (pat c : String) : (collectMatches pat c).length ≤ 5 := by
  simp only [collectMatches, List.length_take]
  omega

theorem mem_collectMatches (pat c : String) (m : MatchRec)
    (hm : m ∈ collectMatches pat c) :
    m.content.length ≤ 100 ∧ 1 ≤ m.line_number ∧
      ∃ line, (splitOnChar '\n' c)[m.line_number - 1]? = some line ∧
        pyIn (strToLower pat) (strToLower line) = true ∧
        m.content = strTake 100 (strTrim line) := by
  simp only [collectMatches] at hm
  have hm2 := List.take_subset 5 _ hm
  obtain ⟨pr, hpr, hmf⟩ := List.mem_map.mp hm2
  obtain ⟨hpre, hpp⟩ := List.mem_filter.mp hpr
  have hget : (splitOnChar '\n' c)[pr.1]? = some pr.2 :=
    List.mem_enum_iff_getElem?.mp hpre
  rw [← hmf]
  refine ⟨strTake_length_le 100 _, by simp, pr.2, ?_, hpp, rfl⟩
  simpa using hget

theorem searchLoop_mem (fs : FS) (pat : String) (paths : List String) (r : SearchEntry)
    (hr : r ∈ searchLoop fs pat paths) :
    osPathIsfile fs r.file = true ∧
    ∃ content, openReadIgnoreErrors fs r.file = .ok content ∧
      pyIn (strToLower pat) (strToLower content) = true ∧
      r.matchList = collectMatches pat content := by
  induction paths with
  | nil => cases hr
  | cons p rest ih =>
    simp only [searchLoop] at hr
    by_cases hf : osPathIsfile fs p = true
    · rw [hf] at hr
      simp only [if_true] at hr
      cases hread : openReadIgnoreErrors fs p with
      | ok content =>
        rw [hread] at hr
        dsimp only at hr
        by_cases hc : pyIn (strToLower pat) (strToLower content) = true
        · rw [hc] at hr
          simp only [if_true] at hr
          rcases List.mem_cons.mp hr with hr0 | hrrest
          · rw [hr0]
            exact ⟨hf, content, hread, hc, rfl⟩
          · exact ih hrrest
        · rw [Bool.eq_false_iff.mpr hc] at hr
          simp at hr
          exact ih hr
      | error e =>
        rw [hread] at hr
        dsimp only at hr
        exact ih hr
    · rw [Bool.eq_false_iff.mpr hf] at hr
      simp at hr
      exact ih hr

theorem searchLoop_cons_subset (fs : FS) (pat q : String) (rest : List String)
    (r : SearchEntry) (hr : r ∈ searchLoop fs pat rest) :
    r ∈ searchLoop fs pat (q :: rest) := by
  simp only [searchLoop]
  split
  · split
    · split
      · exact List.mem_cons_of_mem _ hr
      · exact hr
    · exact hr
  · exact hr

theorem searchLoop_finds (fs : FS) (pat : String) (paths : List String) (p content : String)
    (hp : p ∈ paths) (hf : osPathIsfile fs p = true)
    (hread : openReadIgnoreErrors fs p = .ok content)
    (hc : pyIn (strToLower pat) (strToLower content) = true) :
    (⟨p, collectMatches pat content⟩ : SearchEntry) ∈ searchLoop fs pat paths := by
  induction paths with
  | nil => cases hp
  | cons q rest ih =>
    rcases List.mem_cons.mp hp with hpq | hm
    · rw [← hpq]
      simp only [searchLoop, hf, hread, hc, if_true]
      exact List.mem_cons_self _ _
    · exact searchLoop_cons_subset fs pat q rest _ (ih hm)

/-- C8: for every directory, search pattern and file pattern (and whatever
path list the glob collaborator returns), `search_files` reports exactly
the entries of the per-file loop; every reported entry is a regular file
whose text read succeeded and whose content contains the pattern
case-insensitively; each entry carries at most 5 matches; each match has a
1-based line number pointing at a line that contains the pattern
case-insensitively and a content of at most 100 characters (the stripped
line cut to 100); every readable matching regular file in the glob output
is reported (so "Hello" in a file is found by pattern "hello"); and a file
whose read raises is silently skipped, never reported and never fatal. -/
theorem C8_search_files (ctx : Ctx) (fs : FS) (dir pat fpat : String)
    (found : List String)
    (hsafe : is_safe_path ctx dir = true)
    (hglob : ctx.glob (joinPath (joinPath dir "**") fpat) = .ok found) :
    (search_files ctx fs { directory := some dir, pattern := some pat, file_pattern := some fpat } =
       (fs, textResult (if (searchLoop fs pat found).isEmpty then "No matches found"
                        else renderSearchEntries (searchLoop fs pat found)))) ∧
    (∀ r, r ∈ searchLoop fs pat found →
       osPathIsfile fs r.file = true ∧
       r.matchList.length ≤ 5 ∧
       ∃ content, openReadIgnoreErrors fs r.file = .ok content ∧
         pyIn (strToLower pat) (strToLower content) = true ∧
         r.matchList = collectMatches pat content ∧
         (∀ m, m ∈ r.matchList → m.content.length ≤ 100 ∧ 1 ≤ m.line_number ∧
            ∃ line, (splitOnChar '\n' content)[m.line_number - 1]? = some line ∧
              pyIn (strToLower pat) (strToLower line) = true ∧
              m.content = strTake 100 (strTrim line))) ∧
    (∀ p content, p ∈ found → osPathIsfile fs p = true →
       openReadIgnoreErrors fs p = .ok content →
       pyIn (strToLower pat) (strToLower content) = true →
       (⟨p, collectMatches pat content⟩ : SearchEntry) ∈ searchLoop fs pat found) ∧
    (∀ p err, openReadIgnoreErrors fs p = .error err →
       ∀ r, r ∈ searchLoop fs pat found → r.file ≠ p) := by
  refine ⟨?_, fun r hr => ?_, fun p content hp hf hread hc =>
    searchLoop_finds fs pat found p content hp hf hread hc, fun p err herr r hr hrp => ?_⟩
  · simp [search_files, hsafe, search_attempt, hglob]
  · obtain ⟨hf, content, hread, hc, hml⟩ := searchLoop_mem fs pat found r hr
    refine ⟨hf, ?_, content, hread, hc, hml, fun m hmm => ?_⟩
    · rw [hml]
      exact collectMatches_length_le pat content
    · rw [hml] at hmm
      exact mem_collectMatches pat content m hmm
  · obtain ⟨hf, content, hread, hc, hml⟩ := searchLoop_mem fs pat found r hr
    rw [hrp] at hread
    rw [herr] at hread
    exact Except.noConfusion hread

/-- C8 fixture: `a.txt` holds the (case-varied) search term on six distinct
lines; `b.txt` contains it but is unreadable. -/
def fs8 : FS :=
  ⟨[("a.txt", ⟨"say Hello\nno\nHELLO two\nhello three\nHeLLo four\nhello five\nhello six",
      true, true, defaultMeta⟩),
    ("b.txt", ⟨"secret hello", false, true, defaultMeta⟩)], []⟩

def ctx8 : Ctx := { idCtx with glob := fun _ => .ok ["a.txt", "b.txt"] }

/-- C8 witness: the concrete search reports `a.txt` with its capped match
list (the six case-varied matching lines cut down to 5), and the handler's
answer is the serialized result list. -/
theorem C8_search_files_witness :
    search_files ctx8 fs8
        { directory := some ".", pattern := some "hello", file_pattern := some "*" } =
      (fs8, textResult (if (searchLoop fs8 "hello" ["a.txt", "b.txt"]).isEmpty
          then "No matches found"
          else renderSearchEntries (searchLoop fs8 "hello" ["a.txt", "b.txt"]))) ∧
    (⟨"a.txt", collectMatches "hello"
        "say Hello\nno\nHELLO two\nhello three\nHeLLo four\nhello five\nhello six"⟩ :
      SearchEntry) ∈ searchLoop fs8 "hello" ["a.txt", "b.txt"] := by
  have h := C8_search_files ctx8 fs8 "." "hello" "*" ["a.txt", "b.txt"] (by decide) rfl
  exact ⟨h.1, h.2.2.1 "a.txt"
    "say Hello\nno\nHELLO two\nhello three\nHeLLo four\nhello five\nhello six"
    (by decide) (by decide) rfl (by decide)⟩

end FMS
